import Mathlib

/-!
Shallow embedding of the session orchestration core of go-librespot
(cmd/daemon/session.go): the data model of the PutConnectState request, the
Dealer-message handler, Close, Connect and the Run select loop, together with
theorems settling the specification claims about them.
-/

/-- const VolumeSteps = 64 (session.go). -/
def VolumeSteps : Nat := 64

/-- Modelled from the spec: librespot.VersionString is a fixed software version
string defined outside src/; it is only used opaquely here. -/
def versionString : String := "go-librespot source"

/-- Modelled from the spec: librespot.ClientId is a fixed client id constant
defined outside src/; it is only used opaquely here. -/
def clientIdConst : String := "client-id"

/-- connectpb.MemberType (protobuf enum, only the used values). -/
inductive MemberType where
  | CONNECT_STATE
  | SPIRC
deriving DecidableEq, Repr

/-- connectpb.PutStateReason (protobuf enum, only some values). -/
inductive PutStateReason where
  | UNKNOWN_PUT_STATE_REASON
  | NEW_DEVICE
  | PLAYER_STATE_CHANGED
  | VOLUME_CHANGED
deriving DecidableEq, Repr

/-- connectpb.Capabilities, the fields session.go sets. -/
structure Capabilities where
  canBePlayer : Bool
  restrictToLocal : Bool
  gaiaEqConnectId : Bool
  supportsLogout : Bool
  isObservable : Bool
  volumeSteps : Nat
  supportedTypes : List String
  commandAcks : Bool
  supportsRename : Bool
  hidden : Bool
  disableVolume : Bool
  connectDisabled : Bool
  supportsPlaylistV2 : Bool
  isControllable : Bool
  supportsExternalEpisodes : Bool
  supportsSetBackendMetadata : Bool
  supportsTransferCommand : Bool
  supportsCommandRequest : Bool
  isVoiceEnabled : Bool
  needsFullPlayerState : Bool
  supportsGzipPushes : Bool
  supportsSetOptionsCommand : Bool
  supportsHifi : Option Bool
  connectCapabilities : String
deriving DecidableEq, Repr

/-- connectpb.DeviceInfo, the fields session.go sets. -/
structure DeviceInfo where
  canPlay : Bool
  volume : Nat
  name : String
  deviceId : String
  deviceType : Nat
  deviceSoftwareVersion : String
  clientId : String
  spircVersion : String
  capabilities : Capabilities
deriving DecidableEq, Repr

/-- connectpb.PlayerState, the one field session.go sets. -/
structure PlayerState where
  isSystemInitiated : Bool
deriving DecidableEq, Repr

/-- connectpb.Device. -/
structure Device where
  deviceInfo : DeviceInfo
  playerState : PlayerState
deriving DecidableEq, Repr

/-- connectpb.PutStateRequest, the fields session.go sets. -/
structure PutStateRequest where
  clientSideTimestamp : Nat
  memberType : MemberType
  putStateReason : PutStateReason
  device : Device
  isActive : Bool
deriving DecidableEq, Repr

/-- dealer.Message: Uri and Headers (the payload is unused by session.go). -/
structure DealerMessage where
  uri : String
  headers : List (String × String)
deriving DecidableEq, Repr

/-- Go map indexing msg.Headers[k]: yields the zero value "" when the key is
absent. -/
def lookupHeader (hs : List (String × String)) (k : String) : String :=
  match hs.find? (fun p => p.1 == k) with
  | some p => p.2
  | none => ""

/-- The fields of App that Session reads (deviceName, deviceId, deviceType;
deviceType is a protobuf enum value, modelled as a Nat). -/
structure AppConfig where
  deviceName : String
  deviceId : String
  deviceType : Nat
deriving DecidableEq, Repr

/-- The Session-owned mutable state touched by the handlers: spotConnId and the
one-slot stop channel (stopBuf = true iff the capacity-1 buffer holds a value). -/
structure SessState where
  spotConnId : String
  stopBuf : Bool
deriving DecidableEq, Repr

/-- Observable effects emitted by the Session code: log lines, the outbound
PutConnectState call, the stop-channel send, and the two teardown calls. -/
inductive Effect where
  | logDebug (msg : String)
  | logInfo (msg : String)
  | logWarn (msg : String)
  | putConnectState (connId : String) (req : PutStateRequest)
  | sendStop
  | dealerClose
  | apClose
deriving DecidableEq, Repr

/-- Recognizes the outbound PutConnectState call among the effects. -/
def isPutEffect : Effect → Bool
  | Effect.putConnectState _ _ => true
  | _ => false

/-- External outcomes consumed while handling one dealer message:
time.Now().UnixMilli(), s.ap.Username(), and the result of
sp.PutConnectState (some err on failure). -/
structure DealerEnv where
  nowMilli : Nat
  username : String
  putResult : Option String
deriving DecidableEq, Repr

/-- strings.HasPrefix from the Go standard library. -/
def goHasPfx (s p : String) : Bool := p.data.isPrefixOf s.data

def connectionsPfx : String := "hm://pusher/v1/connections/"

def volumePfx : String := "hm://connect-state/v1/connect/volume"

def logoutPfx : String := "hm://connect-state/v1/connect/logout"

def clusterPfx : String := "hm://connect-state/v1/cluster"

/-- The PutStateRequest literal built in Session.handleDealerMessage
(session.go lines 54-100). clientSideTimestamp is uint64(UnixMilli). -/
def buildPutStateRequest (app : AppConfig) (nowMilli : Nat) : PutStateRequest :=
  { clientSideTimestamp := nowMilli % 2 ^ 64
    memberType := MemberType.CONNECT_STATE
    putStateReason := PutStateReason.NEW_DEVICE
    device :=
      { deviceInfo :=
          { canPlay := true
            volume := 0
            name := app.deviceName
            deviceId := app.deviceId
            deviceType := app.deviceType
            deviceSoftwareVersion := versionString
            clientId := clientIdConst
            spircVersion := "3.2.6"
            capabilities :=
              { canBePlayer := true
                restrictToLocal := false
                gaiaEqConnectId := true
                supportsLogout := true
                isObservable := true
                volumeSteps := VolumeSteps
                supportedTypes := ["audio/track"]
                commandAcks := true
                supportsRename := false
                hidden := false
                disableVolume := false
                connectDisabled := false
                supportsPlaylistV2 := true
                isControllable := true
                supportsExternalEpisodes := false
                supportsSetBackendMetadata := false
                supportsTransferCommand := true
                supportsCommandRequest := true
                isVoiceEnabled := false
                needsFullPlayerState := false
                supportsGzipPushes := true
                supportsSetOptionsCommand := false
                supportsHifi := none
                connectCapabilities := "" } }
        playerState := { isSystemInitiated := true } }
    isActive := false }

/-- Session.Close. The channel send is a plain send on the capacity-1 stop
channel, so it blocks (result none) when the slot is already full; otherwise
the slot is filled and dealer.Close then ap.Close run, in that order. -/
def sessionClose (st : SessState) : Option (SessState × List Effect) :=
  if st.stopBuf then none
  else some ({ st with stopBuf := true },
    [Effect.sendStop, Effect.dealerClose, Effect.apClose])

/-- Session.handleDealerMessage. Result none means the call blocks (the logout
branch invokes Close, whose channel send can block); otherwise some of the new
state, the emitted effects in order, and the returned error. -/
def handleDealerMessage (app : AppConfig) (env : DealerEnv) (st : SessState)
    (msg : DealerMessage) : Option (SessState × List Effect × Option String) :=
  if goHasPfx msg.uri connectionsPfx then
    let cid := lookupHeader msg.headers "Spotify-Connection-Id"
    let effs := [Effect.logDebug ("received connection id: " ++ cid),
      Effect.putConnectState cid (buildPutStateRequest app env.nowMilli)]
    match env.putResult with
    | some e => some ({ st with spotConnId := cid }, effs,
        some ("failed initial state put: " ++ e))
    | none => some ({ st with spotConnId := cid }, effs, none)
  else if goHasPfx msg.uri volumePfx then
    some (st, [], none)
  else if goHasPfx msg.uri logoutPfx then
    match sessionClose st with
    | none => none
    | some (st2, closeEffs) =>
        some (st2, Effect.logInfo ("logging out from " ++ env.username) :: closeEffs, none)
  else if goHasPfx msg.uri clusterPfx then
    some (st, [], none)
  else
    some (st, [], none)

/-- Modelled from the spec: the SessionCredentials variants are declared
outside src/; section 3 of the spec fixes them as a closed choice between
username/password and a stored opaque blob. -/
inductive SessionCredentials where
  | userPass (username password : String)
  | blob (username : String) (blobData : List Nat)
deriving DecidableEq, Repr

/-- The fallible call sites of Session.Connect, in program order. -/
inductive ConnectStep where
  | resolveAccesspoint
  | newAccesspoint
  | authUserPass
  | authBlob
  | login5Auth
  | resolveSpclient
  | newSpclient
  | resolveDealer
  | newDealer
deriving DecidableEq, Repr

/-- Outcomes of the external collaborators consumed by Session.Connect, one
per fallible call site. Payloads (addresses) are opaque strings. -/
structure ConnectEnv where
  getAccesspoint : Except String String
  accesspointInit : Except String Unit
  connectUserPass : Except String Unit
  connectBlob : Except String Unit
  login5Login : Except String Unit
  getSpclient : Except String String
  spclientInit : Except String Unit
  getDealer : Except String String
  dealerInit : Except String Unit
deriving Repr

/-- The tail of Session.Connect after accesspoint authentication: login5,
spclient resolution and construction, dealer resolution and construction. -/
def connectFromAuth (pre : List ConnectStep) (env : ConnectEnv) :
    List ConnectStep × Except String Unit :=
  match env.login5Login with
  | Except.error e => (pre ++ [ConnectStep.login5Auth],
      Except.error ("failed authenticating with login5: " ++ e))
  | Except.ok _ =>
  match env.getSpclient with
  | Except.error e => (pre ++ [ConnectStep.login5Auth, ConnectStep.resolveSpclient],
      Except.error ("failed getting spclient from resolver: " ++ e))
  | Except.ok _ =>
  match env.spclientInit with
  | Except.error e => (pre ++ [ConnectStep.login5Auth, ConnectStep.resolveSpclient,
      ConnectStep.newSpclient],
      Except.error ("failed initializing spclient: " ++ e))
  | Except.ok _ =>
  match env.getDealer with
  | Except.error e => (pre ++ [ConnectStep.login5Auth, ConnectStep.resolveSpclient,
      ConnectStep.newSpclient, ConnectStep.resolveDealer],
      Except.error ("failed getting dealer from resolver: " ++ e))
  | Except.ok _ =>
  match env.dealerInit with
  | Except.error e => (pre ++ [ConnectStep.login5Auth, ConnectStep.resolveSpclient,
      ConnectStep.newSpclient, ConnectStep.resolveDealer, ConnectStep.newDealer],
      Except.error ("failed connecting to dealer: " ++ e))
  | Except.ok _ => (pre ++ [ConnectStep.login5Auth, ConnectStep.resolveSpclient,
      ConnectStep.newSpclient, ConnectStep.resolveDealer, ConnectStep.newDealer],
      Except.ok ())

/-- Session.Connect: the executed fallible steps in order, and the result.
Each failure returns the stage-identifying wrapped error, exactly as the
fmt.Errorf calls in session.go. -/
def sessionConnect (creds : SessionCredentials) (env : ConnectEnv) :
    List ConnectStep × Except String Unit :=
  match env.getAccesspoint with
  | Except.error e => ([ConnectStep.resolveAccesspoint],
      Except.error ("failed getting accesspoint from resolver: " ++ e))
  | Except.ok _ =>
  match env.accesspointInit with
  | Except.error e => ([ConnectStep.resolveAccesspoint, ConnectStep.newAccesspoint],
      Except.error ("failed initializing accesspoint: " ++ e))
  | Except.ok _ =>
  match creds with
  | SessionCredentials.userPass _ _ =>
    match env.connectUserPass with
    | Except.error e => ([ConnectStep.resolveAccesspoint, ConnectStep.newAccesspoint,
        ConnectStep.authUserPass],
        Except.error ("failed authenticating accesspoint with username and password: " ++ e))
    | Except.ok _ => connectFromAuth [ConnectStep.resolveAccesspoint,
        ConnectStep.newAccesspoint, ConnectStep.authUserPass] env
  | SessionCredentials.blob _ _ =>
    match env.connectBlob with
    | Except.error e => ([ConnectStep.resolveAccesspoint, ConnectStep.newAccesspoint,
        ConnectStep.authBlob],
        Except.error ("failed authenticating accesspoint with blob: " ++ e))
    | Except.ok _ => connectFromAuth [ConnectStep.resolveAccesspoint,
        ConnectStep.newAccesspoint, ConnectStep.authBlob] env

/-- The authentication step selected by the credential variant. -/
def authStep : SessionCredentials → ConnectStep
  | SessionCredentials.userPass _ _ => ConnectStep.authUserPass
  | SessionCredentials.blob _ _ => ConnectStep.authBlob

/-- The full ordered list of Connect stages for a given credential variant. -/
def canonicalOrder (creds : SessionCredentials) : List ConnectStep :=
  [ConnectStep.resolveAccesspoint, ConnectStep.newAccesspoint, authStep creds,
   ConnectStep.login5Auth, ConnectStep.resolveSpclient, ConnectStep.newSpclient,
   ConnectStep.resolveDealer, ConnectStep.newDealer]

/-- The accesspoint authentication call of the chosen variant succeeded. -/
def authOk (creds : SessionCredentials) (env : ConnectEnv) : Prop :=
  match creds with
  | SessionCredentials.userPass _ _ => env.connectUserPass = Except.ok ()
  | SessionCredentials.blob _ _ => env.connectBlob = Except.ok ()

/-- ap.PacketType: ProductInfo is the only type Run subscribes to. -/
inductive PacketType where
  | productInfo
  | other
deriving DecidableEq, Repr

/-- An Accesspoint packet; parseErr models the xml.Unmarshal outcome for the
ProductInfo payload (the payload bytes themselves are otherwise opaque). -/
structure ApPacket where
  typ : PacketType
  parseErr : Option String
deriving DecidableEq, Repr

/-- Session.handleAccesspointPacket. -/
def handleAccesspointPacket (pkt : ApPacket) : Option String :=
  match pkt.typ with
  | PacketType.productInfo =>
    match pkt.parseErr with
    | some e => some ("failed umarshalling ProductInfo: " ++ e)
    | none => none
  | PacketType.other => none

/-- The three select cases of Session.Run. -/
inductive Choice where
  | stopCh
  | apCh
  | dealerCh
deriving DecidableEq, Repr

/-- The state Run observes: the session state plus the pending events on the
accesspoint and dealer delivery channels, in arrival order. -/
structure RunState where
  sess : SessState
  apQueue : List ApPacket
  dealerQueue : List DealerMessage
deriving DecidableEq, Repr

/-- One iteration of Session.Run's select, taking the chosen case. Go's select
picks nondeterministically among the READY cases, so the choice is a
parameter; none means the chosen case is not ready (or the handler blocked).
The Bool is true exactly when Run returns. -/
def runStep (app : AppConfig) (env : DealerEnv) (st : RunState) (c : Choice) :
    Option (RunState × List Effect × Bool) :=
  match c with
  | Choice.stopCh =>
    if st.sess.stopBuf then
      some ({ st with sess := { st.sess with stopBuf := false } }, [], true)
    else none
  | Choice.apCh =>
    match st.apQueue with
    | [] => none
    | pkt :: rest =>
      match handleAccesspointPacket pkt with
      | some e => some ({ st with apQueue := rest },
          [Effect.logWarn ("failed handling accesspoint packet: " ++ e)], false)
      | none => some ({ st with apQueue := rest }, [], false)
  | Choice.dealerCh =>
    match st.dealerQueue with
    | [] => none
    | msg :: rest =>
      match handleDealerMessage app env st.sess msg with
      | none => none
      | some (s2, effs, some e) =>
        some ({ st with sess := s2, dealerQueue := rest },
          effs ++ [Effect.logWarn ("failed handling dealer message: " ++ e)], false)
      | some (s2, effs, none) =>
        some ({ st with sess := s2, dealerQueue := rest }, effs, false)

/-- A finite execution of Run's loop under a schedule of select choices; stops
early when Run returns. The Bool is true when Run returned within the
schedule. -/
def runTrace (app : AppConfig) (env : DealerEnv) :
    RunState → List Choice → Option (RunState × List Effect × Bool)
  | st, [] => some (st, [], false)
  | st, c :: cs =>
    match runStep app env st c with
    | none => none
    | some (st2, effs, true) => some (st2, effs, true)
    | some (st2, effs, false) =>
      match runTrace app env st2 cs with
      | none => none
      | some (st3, effs2, r) => some (st3, effs ++ effs2, r)

/-- If p is a prefix of u, and q is no longer than p yet not a prefix of p,
then q is not a prefix of u. Used to show that a Uri entering a later branch
of the handler's if chain misses the earlier branches. -/
lemma goHasPfx_excl (u p q : String) (hp : goHasPfx u p = true)
    (hlen : q.data.length ≤ p.data.length)
    (hq : q.data.isPrefixOf p.data = false) : goHasPfx u q = false := by
  unfold goHasPfx at hp ⊢
  cases h : q.data.isPrefixOf u.data with
  | false => rfl
  | true =>
    exfalso
    have h1 : p.data <+: u.data := List.isPrefixOf_iff_prefix.mp hp
    have h2 : q.data <+: u.data := List.isPrefixOf_iff_prefix.mp h
    have h3 : q.data <+: p.data := List.prefix_of_prefix_length_le h2 h1 hlen
    have h4 : q.data.isPrefixOf p.data = true := List.isPrefixOf_iff_prefix.mpr h3
    rw [hq] at h4
    exact Bool.false_ne_true h4

/-- A Uri with the logout prefix does not have the connections prefix. -/
lemma logout_no_connections (u : String) (h : goHasPfx u logoutPfx = true) :
    goHasPfx u connectionsPfx = false :=
  goHasPfx_excl u logoutPfx connectionsPfx h (by decide) (by decide)

/-- A Uri with the logout prefix does not have the volume prefix. -/
lemma logout_no_volume (u : String) (h : goHasPfx u logoutPfx = true) :
    goHasPfx u volumePfx = false :=
  goHasPfx_excl u logoutPfx volumePfx h (by decide) (by decide)

/-- Concrete device configuration used by the witnesses. -/
def wApp : AppConfig := { deviceName := "dev", deviceId := "id1", deviceType := 4 }

/-- Concrete handler environment with a successful state publish. -/
def wEnv : DealerEnv := { nowMilli := 5, username := "alice", putResult := none }

/-- Concrete handler environment whose state publish fails. -/
def wEnvPutFail : DealerEnv :=
  { nowMilli := 5, username := "alice", putResult := some "net down" }

/-- A connections message carrying a Spotify-Connection-Id header. -/
def wMsgConn : DealerMessage :=
  { uri := "hm://pusher/v1/connections/abc",
    headers := [("Spotify-Connection-Id", "abc123")] }

/-- A connections message without the Spotify-Connection-Id header. -/
def wMsgConnNoHdr : DealerMessage :=
  { uri := "hm://pusher/v1/connections/abc", headers := [("Other", "x")] }

/-- A logout message. -/
def wMsgLogout : DealerMessage :=
  { uri := "hm://connect-state/v1/connect/logout", headers := [] }

/-- A message matching none of the four routed prefixes. -/
def wMsgUnknown : DealerMessage :=
  { uri := "hm://something/else", headers := [] }

/-- A Connect environment where every external step succeeds. -/
def envAllOk : ConnectEnv :=
  { getAccesspoint := Except.ok "apaddr", accesspointInit := Except.ok (),
    connectUserPass := Except.ok (), connectBlob := Except.ok (),
    login5Login := Except.ok (), getSpclient := Except.ok "spaddr",
    spclientInit := Except.ok (), getDealer := Except.ok "daddr",
    dealerInit := Except.ok () }

/-- A Connect environment failing exactly at the login5 exchange. -/
def envLogin5Fail : ConnectEnv := { envAllOk with login5Login := Except.error "boom" }

/-- C1: for every Dealer message whose Uri has the prefix
"hm://pusher/v1/connections/", handleDealerMessage stores the message's
Spotify-Connection-Id header value as the session's spotConnId, and the
emitted effects contain exactly one PutConnectState call, whose request has
PutStateReason = NEW_DEVICE and IsActive = false. -/
theorem C1_connections_stores_id_and_puts_state (app : AppConfig) (env : DealerEnv)
    (st : SessState) (msg : DealerMessage)
    (h : goHasPfx msg.uri connectionsPfx = true) :
    ((handleDealerMessage app env st msg).map fun r => r.1.spotConnId) =
      some (lookupHeader msg.headers "Spotify-Connection-Id") ∧
    ((handleDealerMessage app env st msg).map fun r => r.2.1.filter isPutEffect) =
      some [Effect.putConnectState (lookupHeader msg.headers "Spotify-Connection-Id")
        (buildPutStateRequest app env.nowMilli)] ∧
    (buildPutStateRequest app env.nowMilli).putStateReason = PutStateReason.NEW_DEVICE ∧
    (buildPutStateRequest app env.nowMilli).isActive = false := by
  refine ⟨?_, ?_, rfl, rfl⟩ <;>
    cases hpr : env.putResult <;>
      simp [handleDealerMessage, h, hpr, isPutEffect]

/-- C1 witness at a concrete connections message. -/
theorem C1_witness :
    ((handleDealerMessage wApp wEnv { spotConnId := "", stopBuf := false } wMsgConn).map
        fun r => r.1.spotConnId) =
      some (lookupHeader wMsgConn.headers "Spotify-Connection-Id") ∧
    ((handleDealerMessage wApp wEnv { spotConnId := "", stopBuf := false } wMsgConn).map
        fun r => r.2.1.filter isPutEffect) =
      some [Effect.putConnectState (lookupHeader wMsgConn.headers "Spotify-Connection-Id")
        (buildPutStateRequest wApp wEnv.nowMilli)] ∧
    (buildPutStateRequest wApp wEnv.nowMilli).putStateReason = PutStateReason.NEW_DEVICE ∧
    (buildPutStateRequest wApp wEnv.nowMilli).isActive = false :=
  C1_connections_stores_id_and_puts_state wApp wEnv { spotConnId := "", stopBuf := false }
    wMsgConn (by decide)

/-- C2 counterexample: Close on a fresh session fills the one-slot stop
buffer, and a second Close then blocks on the plain channel send (result
none): the second invocation does not complete without blocking. -/
theorem C2_counterexample :
    sessionClose { spotConnId := "", stopBuf := false } =
      some ({ spotConnId := "", stopBuf := true },
        [Effect.sendStop, Effect.dealerClose, Effect.apClose]) ∧
    sessionClose { spotConnId := "", stopBuf := true } = none := by decide

/-- C2 amended: the stop-signal send in Close is a plain send on a single-slot
channel, not a non-blocking send; a Close call completes (filling the slot and
tearing down dealer then accesspoint) exactly when the slot is empty, and
blocks while the slot still holds an unconsumed signal, so a second Close does
not block only if the first signal was consumed in between. -/
theorem C2_close_semantics (st : SessState) :
    (st.stopBuf = false → sessionClose st =
      some ({ st with stopBuf := true },
        [Effect.sendStop, Effect.dealerClose, Effect.apClose])) ∧
    (st.stopBuf = true → sessionClose st = none) := by
  constructor <;> intro h <;> simp [sessionClose, h]

/-- C2 witness: with an empty slot Close completes; with a full slot it
blocks. -/
theorem C2_witness :
    sessionClose { spotConnId := "w", stopBuf := false } =
      some ({ spotConnId := "w", stopBuf := true },
        [Effect.sendStop, Effect.dealerClose, Effect.apClose]) ∧
    sessionClose { spotConnId := "w", stopBuf := true } = none :=
  ⟨(C2_close_semantics { spotConnId := "w", stopBuf := false }).1 rfl,
   (C2_close_semantics { spotConnId := "w", stopBuf := true }).2 rfl⟩

/-- C6: a Dealer message matching none of the four routed prefixes leaves the
session state unchanged, emits no effect (no log, no PutConnectState, no
Close), and returns no error. -/
theorem C6_unmatched_is_noop (app : AppConfig) (env : DealerEnv) (st : SessState)
    (msg : DealerMessage)
    (h1 : goHasPfx msg.uri connectionsPfx = false)
    (h2 : goHasPfx msg.uri volumePfx = false)
    (h3 : goHasPfx msg.uri logoutPfx = false)
    (h4 : goHasPfx msg.uri clusterPfx = false) :
    handleDealerMessage app env st msg = some (st, [], none) := by
  simp [handleDealerMessage, h1, h2, h3, h4]

/-- C6 witness at a concrete unmatched message. -/
theorem C6_witness :
    handleDealerMessage wApp wEnv { spotConnId := "keep", stopBuf := false } wMsgUnknown =
      some ({ spotConnId := "keep", stopBuf := false }, [], none) :=
  C6_unmatched_is_noop wApp wEnv { spotConnId := "keep", stopBuf := false } wMsgUnknown
    (by decide) (by decide) (by decide) (by decide)

/-- C8: whenever its channel send completes, Close performs in order the
stop-signal send, dealer.Close, then ap.Close, with no condition guarding the
teardowns; and Run's stop case returns (flag true) emitting no effect, in
particular no teardown. -/
theorem C8_close_order_run_no_teardown (st : SessState) (app : AppConfig)
    (env : DealerEnv) (rst : RunState) :
    (st.stopBuf = false → sessionClose st =
      some ({ st with stopBuf := true },
        [Effect.sendStop, Effect.dealerClose, Effect.apClose])) ∧
    (rst.sess.stopBuf = true → runStep app env rst Choice.stopCh =
      some ({ rst with sess := { rst.sess with stopBuf := false } }, [], true)) := by
  constructor <;> intro h <;> simp [sessionClose, runStep, h]

/-- C8 witness at concrete states. -/
theorem C8_witness :
    sessionClose { spotConnId := "c", stopBuf := false } =
      some ({ spotConnId := "c", stopBuf := true },
        [Effect.sendStop, Effect.dealerClose, Effect.apClose]) ∧
    runStep wApp wEnv
        { sess := { spotConnId := "c", stopBuf := true }, apQueue := [], dealerQueue := [] }
        Choice.stopCh =
      some ({ sess := { spotConnId := "c", stopBuf := false }, apQueue := [], dealerQueue := [] },
        [], true) :=
  ⟨(C8_close_order_run_no_teardown { spotConnId := "c", stopBuf := false } wApp wEnv
      { sess := { spotConnId := "c", stopBuf := true }, apQueue := [], dealerQueue := [] }).1 rfl,
   (C8_close_order_run_no_teardown { spotConnId := "c", stopBuf := false } wApp wEnv
      { sess := { spotConnId := "c", stopBuf := true }, apQueue := [], dealerQueue := [] }).2 rfl⟩

/-- C9: the capability set inside the PutConnectState request is one fixed
constant, identical across sessions: it does not depend on the device
configuration or the timestamp (and the credential variant never reaches the
builder at all), and it carries the documented fixed values, among them
CanBePlayer, IsObservable, SupportsRename = false, SupportsGzipPushes,
VolumeSteps = 64 and SupportedTypes = audio/track. -/
theorem C9_capabilities_fixed (a1 a2 : AppConfig) (n1 n2 : Nat) :
    (buildPutStateRequest a1 n1).device.deviceInfo.capabilities =
      (buildPutStateRequest a2 n2).device.deviceInfo.capabilities ∧
    (buildPutStateRequest a1 n1).device.deviceInfo.capabilities.canBePlayer = true ∧
    (buildPutStateRequest a1 n1).device.deviceInfo.capabilities.isObservable = true ∧
    (buildPutStateRequest a1 n1).device.deviceInfo.capabilities.supportsRename = false ∧
    (buildPutStateRequest a1 n1).device.deviceInfo.capabilities.supportsGzipPushes = true ∧
    (buildPutStateRequest a1 n1).device.deviceInfo.capabilities.volumeSteps = VolumeSteps ∧
    VolumeSteps = 64 ∧
    (buildPutStateRequest a1 n1).device.deviceInfo.capabilities.supportedTypes =
      ["audio/track"] :=
  ⟨rfl, rfl, rfl, rfl, rfl, rfl, rfl, rfl⟩

/-- C10: for a connections-prefixed message, the stored spotConnId is exactly
the header lookup, overwriting any previously stored value; when the
Spotify-Connection-Id key is absent the Go map lookup yields the empty
string, which is stored and passed to the still-issued PutConnectState call. -/
theorem C10_missing_header_overwrite (app : AppConfig) (env : DealerEnv)
    (st : SessState) (msg : DealerMessage)
    (h : goHasPfx msg.uri connectionsPfx = true) :
    ((handleDealerMessage app env st msg).map fun r => r.1) =
      some { st with spotConnId := lookupHeader msg.headers "Spotify-Connection-Id" } ∧
    ((handleDealerMessage app env st msg).map fun r => r.2.1) =
      some [Effect.logDebug ("received connection id: " ++
          lookupHeader msg.headers "Spotify-Connection-Id"),
        Effect.putConnectState (lookupHeader msg.headers "Spotify-Connection-Id")
          (buildPutStateRequest app env.nowMilli)] ∧
    ((msg.headers.find? fun p => p.1 == "Spotify-Connection-Id") = none →
      lookupHeader msg.headers "Spotify-Connection-Id" = "") := by
  refine ⟨?_, ?_, ?_⟩
  · cases hpr : env.putResult <;> simp [handleDealerMessage, h, hpr]
  · cases hpr : env.putResult <;> simp [handleDealerMessage, h, hpr]
  · intro hf; simp [lookupHeader, hf]

/-- C10 witness: a connections message without the header stores "" over the
previously stored id. -/
theorem C10_witness :
    ((handleDealerMessage wApp wEnv { spotConnId := "old", stopBuf := false }
        wMsgConnNoHdr).map fun r => r.1) =
      some { spotConnId := lookupHeader wMsgConnNoHdr.headers "Spotify-Connection-Id",
             stopBuf := false } ∧
    lookupHeader wMsgConnNoHdr.headers "Spotify-Connection-Id" = "" := by
  have h := C10_missing_header_overwrite wApp wEnv { spotConnId := "old", stopBuf := false }
    wMsgConnNoHdr (by decide)
  exact ⟨h.1, h.2.2 (by decide)⟩

/-- C3: Connect executes its fallible steps in the strict canonical order
(resolve accesspoint, construct accesspoint, authenticate by credential
variant, login5 exchange, resolve spclient, construct spclient, resolve
dealer, construct dealer); the first failing step makes Connect return that
stage's wrapped error with only the steps up to and including it executed,
and when every step succeeds the whole canonical order executes. -/
theorem C3_connect_stage_order (creds : SessionCredentials) (env : ConnectEnv) :
    (∀ e, env.getAccesspoint = Except.error e →
      sessionConnect creds env = ((canonicalOrder creds).take 1,
        Except.error ("failed getting accesspoint from resolver: " ++ e))) ∧
    (∀ a e, env.getAccesspoint = Except.ok a → env.accesspointInit = Except.error e →
      sessionConnect creds env = ((canonicalOrder creds).take 2,
        Except.error ("failed initializing accesspoint: " ++ e))) ∧
    (∀ a u p e, env.getAccesspoint = Except.ok a → env.accesspointInit = Except.ok () →
      creds = SessionCredentials.userPass u p → env.connectUserPass = Except.error e →
      sessionConnect creds env = ((canonicalOrder creds).take 3,
        Except.error ("failed authenticating accesspoint with username and password: " ++ e))) ∧
    (∀ a u b e, env.getAccesspoint = Except.ok a → env.accesspointInit = Except.ok () →
      creds = SessionCredentials.blob u b → env.connectBlob = Except.error e →
      sessionConnect creds env = ((canonicalOrder creds).take 3,
        Except.error ("failed authenticating accesspoint with blob: " ++ e))) ∧
    (∀ a e, env.getAccesspoint = Except.ok a → env.accesspointInit = Except.ok () →
      authOk creds env → env.login5Login = Except.error e →
      sessionConnect creds env = ((canonicalOrder creds).take 4,
        Except.error ("failed authenticating with login5: " ++ e))) ∧
    (∀ a e, env.getAccesspoint = Except.ok a → env.accesspointInit = Except.ok () →
      authOk creds env → env.login5Login = Except.ok () → env.getSpclient = Except.error e →
      sessionConnect creds env = ((canonicalOrder creds).take 5,
        Except.error ("failed getting spclient from resolver: " ++ e))) ∧
    (∀ a sp e, env.getAccesspoint = Except.ok a → env.accesspointInit = Except.ok () →
      authOk creds env → env.login5Login = Except.ok () → env.getSpclient = Except.ok sp →
      env.spclientInit = Except.error e →
      sessionConnect creds env = ((canonicalOrder creds).take 6,
        Except.error ("failed initializing spclient: " ++ e))) ∧
    (∀ a sp e, env.getAccesspoint = Except.ok a → env.accesspointInit = Except.ok () →
      authOk creds env → env.login5Login = Except.ok () → env.getSpclient = Except.ok sp →
      env.spclientInit = Except.ok () → env.getDealer = Except.error e →
      sessionConnect creds env = ((canonicalOrder creds).take 7,
        Except.error ("failed getting dealer from resolver: " ++ e))) ∧
    (∀ a sp d e, env.getAccesspoint = Except.ok a → env.accesspointInit = Except.ok () →
      authOk creds env → env.login5Login = Except.ok () → env.getSpclient = Except.ok sp →
      env.spclientInit = Except.ok () → env.getDealer = Except.ok d →
      env.dealerInit = Except.error e →
      sessionConnect creds env = (canonicalOrder creds,
        Except.error ("failed connecting to dealer: " ++ e))) ∧
    (∀ a sp d, env.getAccesspoint = Except.ok a → env.accesspointInit = Except.ok () →
      authOk creds env → env.login5Login = Except.ok () → env.getSpclient = Except.ok sp →
      env.spclientInit = Except.ok () → env.getDealer = Except.ok d →
      env.dealerInit = Except.ok () →
      sessionConnect creds env = (canonicalOrder creds, Except.ok ())) := by
  refine ⟨?_, ?_, ?_, ?_, ?_, ?_, ?_, ?_, ?_, ?_⟩
  · intro e h1
    cases creds <;> simp [sessionConnect, canonicalOrder, authStep, h1]
  · intro a e h1 h2
    cases creds <;> simp [sessionConnect, canonicalOrder, authStep, h1, h2]
  · intro a u p e h1 h2 hc h3
    subst hc
    simp [sessionConnect, canonicalOrder, authStep, h1, h2, h3]
  · intro a u b e h1 h2 hc h3
    subst hc
    simp [sessionConnect, canonicalOrder, authStep, h1, h2, h3]
  · intro a e h1 h2 ha h4
    cases creds <;> simp only [authOk] at ha <;>
      simp [sessionConnect, connectFromAuth, canonicalOrder, authStep, h1, h2, ha, h4]
  · intro a e h1 h2 ha h4 h5
    cases creds <;> simp only [authOk] at ha <;>
      simp [sessionConnect, connectFromAuth, canonicalOrder, authStep, h1, h2, ha, h4, h5]
  · intro a sp e h1 h2 ha h4 h5 h6
    cases creds <;> simp only [authOk] at ha <;>
      simp [sessionConnect, connectFromAuth, canonicalOrder, authStep, h1, h2, ha, h4, h5, h6]
  · intro a sp e h1 h2 ha h4 h5 h6 h7
    cases creds <;> simp only [authOk] at ha <;>
      simp [sessionConnect, connectFromAuth, canonicalOrder, authStep, h1, h2, ha, h4, h5, h6, h7]
  · intro a sp d e h1 h2 ha h4 h5 h6 h7 h8
    cases creds <;> simp only [authOk] at ha <;>
      simp [sessionConnect, connectFromAuth, canonicalOrder, authStep,
        h1, h2, ha, h4, h5, h6, h7, h8]
  · intro a sp d h1 h2 ha h4 h5 h6 h7 h8
    cases creds <;> simp only [authOk] at ha <;>
      simp [sessionConnect, connectFromAuth, canonicalOrder, authStep,
        h1, h2, ha, h4, h5, h6, h7, h8]

/-- C3 witness: with userPass credentials and an environment failing exactly
at the login5 exchange, Connect executes exactly the first four stages and
returns the login5 stage error. -/
theorem C3_witness :
    sessionConnect (SessionCredentials.userPass "alice" "secret") envLogin5Fail =
      ((canonicalOrder (SessionCredentials.userPass "alice" "secret")).take 4,
        Except.error "failed authenticating with login5: boom") := by
  have h := (C3_connect_stage_order (SessionCredentials.userPass "alice" "secret")
    envLogin5Fail).2.2.2.2.1 "apaddr" "boom" rfl rfl rfl rfl
  exact h

/-- C4 counterexample: a valid Run execution in which, after the logout
message is handled (the username is logged and Close runs: stop signal sent,
dealer then accesspoint torn down), the select — which in Go picks
nondeterministically among the ready cases — takes the still-ready dealer
channel and processes a further pending message (its PutConnectState effect
appears after the teardown effects) before finally taking the stop signal.
Run therefore does not always return without processing further events. -/
theorem C4_counterexample :
    runTrace wApp wEnv
      { sess := { spotConnId := "", stopBuf := false }, apQueue := [],
        dealerQueue := [wMsgLogout, wMsgConn] }
      [Choice.dealerCh, Choice.dealerCh, Choice.stopCh] =
    some ({ sess := { spotConnId := "abc123", stopBuf := false }, apQueue := [],
            dealerQueue := [] },
      [Effect.logInfo "logging out from alice", Effect.sendStop, Effect.dealerClose,
       Effect.apClose, Effect.logDebug "received connection id: abc123",
       Effect.putConnectState "abc123" (buildPutStateRequest wApp 5)], true) := by
  rfl

/-- C4 amended: while Run is looping with an empty stop slot, a
logout-prefixed message logs the authenticated username and invokes Close
exactly once — the handler completes with exactly the effects username log,
stop send, dealer teardown, accesspoint teardown — and Run returns with no
further effect as soon as its select takes the now-pending stop signal;
Go's select may however process other already-ready events first. -/
theorem C4_logout_close_once (app : AppConfig) (env : DealerEnv) (st : SessState)
    (msg : DealerMessage) (aq : List ApPacket) (dq : List DealerMessage)
    (h : goHasPfx msg.uri logoutPfx = true) (hstop : st.stopBuf = false) :
    handleDealerMessage app env st msg =
      some ({ st with stopBuf := true },
        [Effect.logInfo ("logging out from " ++ env.username),
         Effect.sendStop, Effect.dealerClose, Effect.apClose], none) ∧
    runStep app env
        { sess := { st with stopBuf := true }, apQueue := aq, dealerQueue := dq }
        Choice.stopCh =
      some ({ sess := st, apQueue := aq, dealerQueue := dq }, [], true) := by
  obtain ⟨cid, b⟩ := st
  cases hstop
  constructor
  · simp [handleDealerMessage, logout_no_connections msg.uri h,
      logout_no_volume msg.uri h, h, sessionClose]
  · simp [runStep]

/-- C4 witness: the amended theorem at a concrete logout message. -/
theorem C4_witness :
    handleDealerMessage wApp wEnv { spotConnId := "", stopBuf := false } wMsgLogout =
      some ({ spotConnId := "", stopBuf := true },
        [Effect.logInfo ("logging out from " ++ wEnv.username),
         Effect.sendStop, Effect.dealerClose, Effect.apClose], none) ∧
    runStep wApp wEnv
        { sess := { spotConnId := "", stopBuf := true }, apQueue := [], dealerQueue := [] }
        Choice.stopCh =
      some ({ sess := { spotConnId := "", stopBuf := false }, apQueue := [],
              dealerQueue := [] }, [], true) :=
  C4_logout_close_once wApp wEnv { spotConnId := "", stopBuf := false } wMsgLogout [] []
    (by decide) rfl

/-- C7: when a handler fails inside Run — an Accesspoint packet whose handling
returns an error (for example a ProductInfo payload that fails to parse), or
a dealer message whose handling returns an error (for example a failed
PutConnectState) — the error is logged at warning level and the loop
continues: the step's returned flag is false and the remaining queues are
untouched beyond the consumed event. -/
theorem C7_handler_error_logged_loop_continues (app : AppConfig) (env : DealerEnv)
    (rst : RunState) :
    (∀ pkt rest e, rst.apQueue = pkt :: rest → handleAccesspointPacket pkt = some e →
      runStep app env rst Choice.apCh = some ({ rst with apQueue := rest },
        [Effect.logWarn ("failed handling accesspoint packet: " ++ e)], false)) ∧
    (∀ msg rest s2 effs e, rst.dealerQueue = msg :: rest →
      handleDealerMessage app env rst.sess msg = some (s2, effs, some e) →
      runStep app env rst Choice.dealerCh =
        some ({ rst with sess := s2, dealerQueue := rest },
          effs ++ [Effect.logWarn ("failed handling dealer message: " ++ e)], false)) := by
  constructor
  · intro pkt rest e hq he
    simp [runStep, hq, he]
  · intro msg rest s2 effs e hq he
    simp [runStep, hq, he]

/-- A ProductInfo packet whose payload fails to unmarshal. -/
def wBadPkt : ApPacket := { typ := PacketType.productInfo, parseErr := some "bad xml" }

/-- C7 witness: a malformed ProductInfo packet is logged at warning level and
the loop continues, and a connections message whose PutConnectState fails is
likewise logged and the loop continues. -/
theorem C7_witness :
    runStep wApp wEnvPutFail
      { sess := { spotConnId := "", stopBuf := false }, apQueue := [wBadPkt],
        dealerQueue := [wMsgConn] } Choice.apCh =
      some ({ sess := { spotConnId := "", stopBuf := false }, apQueue := [],
              dealerQueue := [wMsgConn] },
        [Effect.logWarn
          "failed handling accesspoint packet: failed umarshalling ProductInfo: bad xml"],
        false) ∧
    runStep wApp wEnvPutFail
      { sess := { spotConnId := "", stopBuf := false }, apQueue := [],
        dealerQueue := [wMsgConn] } Choice.dealerCh =
      some ({ sess := { spotConnId := "abc123", stopBuf := false }, apQueue := [],
              dealerQueue := [] },
        [Effect.logDebug "received connection id: abc123",
         Effect.putConnectState "abc123" (buildPutStateRequest wApp 5),
         Effect.logWarn "failed handling dealer message: failed initial state put: net down"],
        false) := by
  constructor
  · exact (C7_handler_error_logged_loop_continues wApp wEnvPutFail
      { sess := { spotConnId := "", stopBuf := false }, apQueue := [wBadPkt],
        dealerQueue := [wMsgConn] }).1 wBadPkt []
      "failed umarshalling ProductInfo: bad xml" rfl rfl
  · exact (C7_handler_error_logged_loop_continues wApp wEnvPutFail
      { sess := { spotConnId := "", stopBuf := false }, apQueue := [],
        dealerQueue := [wMsgConn] }).2 wMsgConn [] { spotConnId := "abc123", stopBuf := false }
      [Effect.logDebug "received connection id: abc123",
       Effect.putConnectState "abc123" (buildPutStateRequest wApp 5)]
      "failed initial state put: net down" rfl rfl

/-- C5: authentication dispatch is a closed two-way choice: username/password
credentials never reach the blob authentication step, blob credentials never
reach the username/password authentication step, and every credential value
is one of the two variants, so no third dispatch path (and no reachable
runtime fallback for an unrecognized variant) exists. -/
theorem C5_credential_dispatch :
    (∀ u p env, ConnectStep.authBlob ∉
      (sessionConnect (SessionCredentials.userPass u p) env).1) ∧
    (∀ u b env, ConnectStep.authUserPass ∉
      (sessionConnect (SessionCredentials.blob u b) env).1) ∧
    (∀ c : SessionCredentials, (∃ u p, c = SessionCredentials.userPass u p) ∨
      (∃ u b, c = SessionCredentials.blob u b)) := by
  refine ⟨?_, ?_, ?_⟩
  · intro u p env hx
    obtain ⟨g1, g2, g3, g4, g5, g6, g7, g8, g9⟩ := env
    cases g1 <;> cases g2 <;> cases g3 <;> cases g5 <;> cases g6 <;> cases g7 <;>
      cases g8 <;> cases g9 <;> simp [sessionConnect, connectFromAuth] at hx
  · intro u b env hx
    obtain ⟨g1, g2, g3, g4, g5, g6, g7, g8, g9⟩ := env
    cases g1 <;> cases g2 <;> cases g4 <;> cases g5 <;> cases g6 <;> cases g7 <;>
      cases g8 <;> cases g9 <;> simp [sessionConnect, connectFromAuth] at hx
  · intro c
    cases c with
    | userPass u p => exact Or.inl ⟨u, p, rfl⟩
    | blob u b => exact Or.inr ⟨u, b, rfl⟩

/-- C5 witness: the dispatch exclusions at concrete credentials. -/
theorem C5_witness :
    ConnectStep.authBlob ∉
      (sessionConnect (SessionCredentials.userPass "alice" "pw") envAllOk).1 ∧
    ConnectStep.authUserPass ∉
      (sessionConnect (SessionCredentials.blob "alice" [1, 2]) envAllOk).1 :=
  ⟨C5_credential_dispatch.1 "alice" "pw" envAllOk,
   C5_credential_dispatch.2.1 "alice" [1, 2] envAllOk⟩
